import Mathlib

/-!
Verification of the BusinessTools-MCP tool registry and credential-refresh
subsystems, shallowly embedded from the Python source.

Sources embedded:
- src/tools/base.py (ToolResult, SalesToolRegistry)
- src/tools/calendly_helper.py (CalendlyTokenManager)
- src/tools/calendly_tool.py (CalendlyTool.execute, background refresh task, cleanup)
- src/config/google_auth.py (GoogleAuthManager)

Python exceptions are modelled with Except; network and disk effects are
modelled as explicit event traces; datetimes are seconds as Int.
-/

/-- A Python/JSON value as it appears in params and payloads. -/
inductive PVal where
  | vStr : String → PVal
  | vInt : Int → PVal
  | vBool : Bool → PVal
deriving DecidableEq

/-- A Python dict of request parameters or payload data. -/
abbrev PParams := List (String × PVal)

/-- Python truthiness of an optional string: None and the empty string are falsy. -/
def pyTruthyS : Option String → Bool
  | none => false
  | some s => !(s == "")

/-- First-match lookup in a params dict. -/
def lookupP : PParams → String → Option PVal
  | [], _ => none
  | (k, v) :: rest, key => if k = key then some v else lookupP rest key

/-- ToolResult from src/tools/base.py lines 19-25: success flag, optional data,
optional error string, optional metadata dict. -/
structure ToolResult where
  success : Bool
  data : Option PVal
  error : Option String
  metadata : Option PParams
deriving DecidableEq

/-- A value stored in the serialized result dict produced by to_dict. -/
inductive DVal where
  | dBool : Bool → DVal
  | dStr : String → DVal
  | dVal : PVal → DVal
  | dMeta : PParams → DVal
deriving DecidableEq

/-- ToolResult.to_dict from src/tools/base.py lines 27-42: always writes
"success"; writes "data" when data is not None; writes "error" when error is
truthy (not None and nonempty); writes "metadata" when metadata is truthy
(not None and nonempty). -/
def ToolResult.to_dict (r : ToolResult) : List (String × DVal) :=
  let d0 : List (String × DVal) := [("success", DVal.dBool r.success)]
  let d1 := match r.data with
    | some v => d0 ++ [("data", DVal.dVal v)]
    | none => d0
  let d2 := match r.error with
    | some e => if e = "" then d1 else d1 ++ [("error", DVal.dStr e)]
    | none => d1
  match r.metadata with
    | some m => if m = [] then d2 else d2 ++ [("metadata", DVal.dMeta m)]
    | none => d2

/-- Whether a serialized result dict has an entry for a key. -/
def hasKeyD (d : List (String × DVal)) (k : String) : Bool :=
  d.any (fun p => p.1 == k)

/-- SalesTool._create_success_result from src/tools/base.py lines 71-73. -/
def create_success_result (data : Option PVal) (metadata : Option PParams) : ToolResult :=
  { success := true, data := data, error := none, metadata := metadata }

/-- SalesTool._create_error_result from src/tools/base.py lines 75-77
(called with the default metadata = None throughout calendly_tool.py). -/
def create_error_result (error : String) : ToolResult :=
  { success := false, data := none, error := some error, metadata := none }

/-- The behaviour of one SalesTool instance as seen by the registry: its name,
the outcome of initialize (which may raise), the outcome of is_configured
(which may raise), the outcome of cleanup (which may raise), and its execute
method (which may raise). -/
structure ToolSpec where
  name : String
  init : Except String Bool
  is_configured : Except String Bool
  cleanup : Except String Unit
  execute : String → PParams → Except String ToolResult

/-- A registry entry: the tool together with its _configured flag
(src/tools/base.py lines 131, 135). -/
structure RegisteredTool where
  spec : ToolSpec
  configured : Bool

/-- The registry tool map self.tools (a Python dict keyed by tool name),
modelled as an association list where a later insertion shadows an earlier
binding, matching dict overwrite under lookup. -/
abbrev ToolRegistry := List (String × RegisteredTool)

/-- dict insert: the new binding wins on lookup. -/
def insertTool (reg : ToolRegistry) (k : String) (v : RegisteredTool) : ToolRegistry :=
  (k, v) :: reg

/-- dict lookup by exact name. -/
def lookupReg : ToolRegistry → String → Option RegisteredTool
  | [], _ => none
  | (k, v) :: rest, name => if k = name then some v else lookupReg rest name

/-- The init_ok flag of src/tools/base.py lines 123-127: the result of
initialize, with a raised exception caught and treated as false. -/
def initOk (t : ToolSpec) : Bool :=
  match t.init with
  | Except.ok b => b
  | Except.error _ => false

/-- The registration outcome of one tool in initialize_tools: none means the
outer except of lines 140-141 fired (is_configured raised) and the tool is not
registered; some c means the tool is registered with _configured = c. -/
def regOutcome (t : ToolSpec) : Option Bool :=
  if initOk t then
    match t.is_configured with
    | Except.error _ => none
    | Except.ok c => some c
  else some false

/-- One iteration of the loop of SalesToolRegistry.initialize_tools
(src/tools/base.py lines 120-141): instantiate (a raising constructor is
caught by the outer except and the tool is skipped); call initialize with its
own try/except; compute _configured; always register on the normal path. -/
def initOne (reg : ToolRegistry) (ctor : Except String ToolSpec) : ToolRegistry :=
  match ctor with
  | Except.error _ => reg
  | Except.ok tool =>
    if initOk tool then
      match tool.is_configured with
      | Except.error _ => reg
      | Except.ok c => insertTool reg tool.name { spec := tool, configured := c }
    else
      insertTool reg tool.name { spec := tool, configured := false }

/-- SalesToolRegistry.initialize_tools (src/tools/base.py lines 86-143),
generalized over the list of tool constructors. -/
def initialize_tools (ctors : List (Except String ToolSpec)) : ToolRegistry :=
  ctors.foldl initOne []

/-- The names of the tools whose constructors succeed. -/
def namesOf (ctors : List (Except String ToolSpec)) : List String :=
  ctors.filterMap (fun c => match c with
    | Except.ok t => some t.name
    | Except.error _ => none)

/-- How a params["action"] value is consumed by the string-comparison dispatch
chains: a string compares directly; any other value compares unequal to every
action literal and is rendered into the error message, which the model folds
into its rendering. -/
def pvActionStr : PVal → String
  | PVal.vStr s => s
  | PVal.vInt n => toString n
  | PVal.vBool b => toString b

/-- SalesToolRegistry.execute_tool (src/tools/base.py lines 167-198): unknown
name and missing action become error dicts; the tool call is wrapped in
try/except converting any raised exception into an error dict. -/
def execute_tool (reg : ToolRegistry) (name : String) (params : PParams) :
    List (String × DVal) :=
  match lookupReg reg name with
  | none =>
    [("success", DVal.dBool false), ("error", DVal.dStr ("Tool not found: " ++ name))]
  | some rt =>
    match lookupP params "action" with
    | none =>
      [("success", DVal.dBool false), ("error", DVal.dStr "Missing required parameter: action")]
    | some av =>
      let rest := params.filter (fun p => !(p.1 == "action"))
      match rt.spec.execute (pvActionStr av) rest with
      | Except.ok r => r.to_dict
      | Except.error e =>
        [("success", DVal.dBool false), ("error", DVal.dStr ("Tool execution error: " ++ e))]

/-- SalesToolRegistry.cleanup (src/tools/base.py lines 200-210): every
registered tool gets cleanup called; a raising cleanup is caught and logged
(the returned list of logged error messages); afterwards the tool map is
cleared. -/
def registryCleanup (reg : ToolRegistry) : List String × ToolRegistry :=
  (reg.foldl (fun logs p =>
      match p.2.spec.cleanup with
      | Except.ok _ => logs
      | Except.error e => logs ++ [e]) [],
   [])

/-- The per-tool cleanup errors the registry swallows, in registry order. -/
def cleanupErrors (reg : ToolRegistry) : List String :=
  reg.filterMap (fun p =>
    match p.2.spec.cleanup with
    | Except.ok _ => none
    | Except.error e => some e)

/-- In-memory state of CalendlyTokenManager
(src/tools/calendly_helper.py lines 21-28); times are UTC seconds. -/
structure TokenState where
  client_id : Option String
  client_secret : Option String
  access_token : Option String
  refresh_token : Option String
  token_expires_at : Option Int
deriving DecidableEq

/-- A well-typed parsed JSON body of a token response; a none field models the
key being absent from the dict. -/
structure TokenData where
  access_token : Option String
  refresh_token : Option String
  expires_in : Option Int
deriving DecidableEq

/-- Outcome of the provider refresh HTTP call: a 200 with a parsed body, a
non-200 status with body text, or a raised exception (network or parse). -/
inductive RefreshResp where
  | okResp : TokenData → RefreshResp
  | errResp : Int → String → RefreshResp
  | exnResp : String → RefreshResp
deriving DecidableEq

/-- Failure of the provider refresh call: non-success response or exception. -/
def isFailResp : RefreshResp → Bool
  | RefreshResp.okResp _ => false
  | RefreshResp.errResp _ _ => true
  | RefreshResp.exnResp _ => true

/-- Observable effects of the Calendly token manager: the validation GET to
/users/me, the refresh POST to /oauth/token, and the .env file write. -/
inductive CEv where
  | validate : CEv
  | refreshCall : CEv
  | envWrite : CEv
deriving DecidableEq

/-- CalendlyTokenManager._calculate_token_expiry
(src/tools/calendly_helper.py lines 44-46): now plus expires_in, minus a
5-minute buffer. -/
def calculate_token_expiry (now expires_in : Int) : Int :=
  now + (expires_in - 300)

/-- CalendlyTokenManager.is_token_expired
(src/tools/calendly_helper.py lines 48-53): an unknown expiry counts as
expired; otherwise expired when now is at or past the stored expiry. -/
def is_token_expired (st : TokenState) (now : Int) : Bool :=
  match st.token_expires_at with
  | none => true
  | some t => decide (now ≥ t)

/-- CalendlyTokenManager.refresh_access_token
(src/tools/calendly_helper.py lines 55-96). Returns the token_data returned to
the caller (none on every failure path), the state after the call, and the
trace of effects. A missing access_token key in a 200 body raises KeyError
before any field is assigned, and the except clause returns None. -/
def refresh_access_token (st : TokenState) (now : Int) (resp : RefreshResp) :
    Option TokenData × TokenState × List CEv :=
  if !(pyTruthyS st.client_id && pyTruthyS st.client_secret && pyTruthyS st.refresh_token) then
    (none, st, [])
  else
    match resp with
    | RefreshResp.exnResp _ => (none, st, [CEv.refreshCall])
    | RefreshResp.errResp _ _ => (none, st, [CEv.refreshCall])
    | RefreshResp.okResp td =>
      match td.access_token with
      | none => (none, st, [CEv.refreshCall])
      | some newTok =>
        let st1 := { st with access_token := some newTok }
        let st2 := match td.refresh_token with
          | some nr => { st1 with refresh_token := some nr }
          | none => st1
        let expires_in := td.expires_in.getD 7200
        let st3 := { st2 with token_expires_at := some (calculate_token_expiry now expires_in) }
        (some td, st3, [CEv.refreshCall])

/-- CalendlyTokenManager.validate_token
(src/tools/calendly_helper.py lines 98-111): no call when there is no access
token; otherwise one GET whose boolean outcome (200, anything else, or an
exception caught and turned into False) is the oracle vOk. -/
def validate_token (st : TokenState) (vOk : Bool) : Bool × List CEv :=
  if pyTruthyS st.access_token then (vOk, [CEv.validate]) else (false, [])

/-- The third block of ensure_valid_token (src/tools/calendly_helper.py
lines 133-139): if an access token is present validate it once more, else
fail. -/
def ensureStep3 (st : TokenState) (v2 : Bool) (acc : List CEv) :
    Bool × TokenState × List CEv :=
  if pyTruthyS st.access_token then
    if v2 then (true, st, acc ++ [CEv.validate]) else (false, st, acc ++ [CEv.validate])
  else (false, st, acc)

/-- CalendlyTokenManager.ensure_valid_token
(src/tools/calendly_helper.py lines 113-139). v1 and v2 are the oracles for
the first and second validation calls; resp is the oracle for the refresh
call. On a successful refresh the helper writes the new tokens to the .env
file (update_env_file, which swallows its own I/O errors) and returns True. -/
def ensure_valid_token (st : TokenState) (now : Int) (v1 v2 : Bool)
    (resp : RefreshResp) : Bool × TokenState × List CEv :=
  let s1 : List CEv := if pyTruthyS st.access_token then [CEv.validate] else []
  if pyTruthyS st.access_token && v1 then (true, st, s1)
  else if pyTruthyS st.refresh_token && pyTruthyS st.client_id && pyTruthyS st.client_secret then
    match refresh_access_token st now resp with
    | (some _, st2, tr) => (true, st2, s1 ++ tr ++ [CEv.envWrite])
    | (none, st2, tr) => ensureStep3 st2 v2 (s1 ++ tr)
  else ensureStep3 st v2 s1

/-- The 11 action handlers of CalendlyTool, one per private method of
src/tools/calendly_tool.py; each may raise (network faults, missing keys). -/
structure CalendlyHandlers where
  get_user : PParams → Except String ToolResult
  list_event_types : PParams → Except String ToolResult
  get_event_type : PParams → Except String ToolResult
  list_scheduled_events : PParams → Except String ToolResult
  get_scheduled_event : PParams → Except String ToolResult
  cancel_scheduled_event : PParams → Except String ToolResult
  list_invitees : PParams → Except String ToolResult
  get_invitee : PParams → Except String ToolResult
  create_webhook : PParams → Except String ToolResult
  list_webhooks : PParams → Except String ToolResult
  delete_webhook : PParams → Except String ToolResult

/-- The closed enumeration of actions recognized by CalendlyTool.execute
(the if chain of src/tools/calendly_tool.py lines 121-142). -/
def calendlyActions : List String :=
  ["get_user", "list_event_types", "get_event_type",
   "list_scheduled_events", "get_scheduled_event", "cancel_scheduled_event",
   "list_invitees", "get_invitee",
   "create_webhook", "list_webhooks", "delete_webhook"]

/-- The body of the try block of CalendlyTool.execute
(src/tools/calendly_tool.py lines 121-143): the string-comparison dispatch
chain, falling through to the Unknown action error result. -/
def calendlyDispatch (hs : CalendlyHandlers) (action : String) (params : PParams) :
    Except String ToolResult :=
  if action = "get_user" then hs.get_user params
  else if action = "list_event_types" then hs.list_event_types params
  else if action = "get_event_type" then hs.get_event_type params
  else if action = "list_scheduled_events" then hs.list_scheduled_events params
  else if action = "get_scheduled_event" then hs.get_scheduled_event params
  else if action = "cancel_scheduled_event" then hs.cancel_scheduled_event params
  else if action = "list_invitees" then hs.list_invitees params
  else if action = "get_invitee" then hs.get_invitee params
  else if action = "create_webhook" then hs.create_webhook params
  else if action = "list_webhooks" then hs.list_webhooks params
  else if action = "delete_webhook" then hs.delete_webhook params
  else Except.ok (create_error_result ("Unknown action: " ++ action))

/-- CalendlyTool.is_configured (src/tools/calendly_tool.py lines 111-113):
access_token is not None and session is not None (identity checks, not
truthiness). -/
def CalendlyTool.is_configured (access_token : Option String) (session : Bool) : Bool :=
  access_token.isSome && session

/-- CalendlyTool.execute (src/tools/calendly_tool.py lines 115-147): refuse if
not configured; otherwise run the dispatch chain inside try/except, converting
any raised exception into an Operation failed error result. -/
def CalendlyTool.execute (access_token : Option String) (session : Bool)
    (hs : CalendlyHandlers) (action : String) (params : PParams) : ToolResult :=
  if !(CalendlyTool.is_configured access_token session) then
    create_error_result "Calendly not configured"
  else
    match calendlyDispatch hs action params with
    | Except.ok r => r
    | Except.error e => create_error_result ("Operation failed: " ++ e)

/-- Modelled from the spec: the google-auth library Credentials object is not
part of this repository; per spec section 3 a credential carries an access
token, an optional refresh token and an optional UTC expiry, and the library
additionally exposes a validity flag consulted by ensure_valid_credentials. -/
structure GCreds where
  token : Option String
  refresh_token : Option String
  expiry : Option Int
  valid : Bool
deriving DecidableEq

/-- State of GoogleAuthManager (src/config/google_auth.py lines 24-31):
the held credentials, whether self.services is empty, and the
_min_token_lifetime threshold (300 seconds). -/
structure GoogleAuthManager where
  credentials : Option GCreds
  servicesEmpty : Bool
  min_token_lifetime : Int
deriving DecidableEq

/-- Outcome of the google-auth library refresh network call. -/
inductive GRefreshResp where
  | success : String → Option String → Int → GRefreshResp
  | failure : String → GRefreshResp
deriving DecidableEq

/-- Observable effects of GoogleAuthManager: the refresh network call, the
token-file write of _save_credentials, and the service (re)build. -/
inductive GEv where
  | refreshCall : GEv
  | saveCreds : GEv
  | buildServices : GEv
deriving DecidableEq

/-- Modelled from the spec: the google-auth library Credentials.refresh call
(not part of this repository); per spec section 4.3, on success it overwrites
the access token and expiry and rotates the refresh token when the provider
returns one, leaving the credential valid; on failure it raises and leaves the
credential untouched. -/
def libRefresh (c : GCreds) (resp : GRefreshResp) : Except String GCreds :=
  match resp with
  | GRefreshResp.failure e => Except.error e
  | GRefreshResp.success newTok newRefresh newExpiry =>
    Except.ok { token := some newTok,
                refresh_token := match newRefresh with
                  | some nr => some nr
                  | none => c.refresh_token,
                expiry := some newExpiry,
                valid := true }

/-- GoogleAuthManager._should_refresh_token
(src/config/google_auth.py lines 290-297): False when there are no
credentials or no known expiry; otherwise True when strictly fewer than
_min_token_lifetime seconds remain until expiry. -/
def should_refresh_token (m : GoogleAuthManager) (now : Int) : Bool :=
  match m.credentials with
  | none => false
  | some c =>
    match c.expiry with
    | none => false
    | some e => decide (e - now < m.min_token_lifetime)

/-- GoogleAuthManager._refresh_credentials
(src/config/google_auth.py lines 92-106): raise when there is no credential or
no refresh token (before any network call); otherwise run the library refresh
on the executor (network call), then _save_credentials (file write, own errors
swallowed). Returns the outcome paired with the effect trace. -/
def refresh_credentials (m : GoogleAuthManager) (resp : GRefreshResp) :
    Except String GoogleAuthManager × List GEv :=
  match m.credentials with
  | none => (Except.error "No refresh token available", [])
  | some c =>
    if !(pyTruthyS c.refresh_token) then (Except.error "No refresh token available", [])
    else
      match libRefresh c resp with
      | Except.error e => (Except.error e, [GEv.refreshCall])
      | Except.ok c' =>
        (Except.ok { m with credentials := some c' }, [GEv.refreshCall, GEv.saveCreds])

/-- GoogleAuthManager.ensure_valid_credentials
(src/config/google_auth.py lines 299-310): raise when no credentials; refresh
when _should_refresh_token (rebuilding services if none were built); then
return the credentials validity flag. Exceptions propagate to the caller. -/
def ensure_valid_credentials (m : GoogleAuthManager) (now : Int)
    (resp : GRefreshResp) : Except String Bool × GoogleAuthManager × List GEv :=
  match m.credentials with
  | none => (Except.error "No credentials available", m, [])
  | some c =>
    if should_refresh_token m now then
      match refresh_credentials m resp with
      | (Except.error e, tr) => (Except.error e, m, tr)
      | (Except.ok m', tr) =>
        if m'.servicesEmpty then
          let m2 := { m' with servicesEmpty := false }
          (match m2.credentials with
           | some c2 => Except.ok c2.valid
           | none => Except.error "AttributeError",
           m2, tr ++ [GEv.buildServices])
        else
          (match m'.credentials with
           | some c2 => Except.ok c2.valid
           | none => Except.error "AttributeError",
           m', tr)
    else (Except.ok c.valid, m, [])

/-- State of the background refresh coroutine
(CalendlyTool._schedule_token_refresh, src/tools/calendly_tool.py
lines 87-109): still looping, or completed after break. -/
inductive LoopSt where
  | running : LoopSt
  | done : LoopSt
deriving DecidableEq

/-- What the scheduler delivers to the coroutine at its next suspension
point: the sleep interval elapsing, or cancellation. -/
inductive LoopSig where
  | tick : LoopSig
  | cancelSig : LoopSig
deriving DecidableEq

/-- Observable effect of one loop iteration: the refresh attempt
(ensure_valid_token, a network interaction). -/
inductive LoopEv where
  | refreshAttempt : LoopEv
deriving DecidableEq

/-- One step of the background loop: a completed loop does nothing; a
delivered CancelledError is caught by the except clause and breaks the loop;
an elapsed sleep runs the body, which attempts a refresh (any other exception
is caught and the loop continues). -/
def loopStep : LoopSt → LoopSig → LoopSt × List LoopEv
  | LoopSt.done, _ => (LoopSt.done, [])
  | LoopSt.running, LoopSig.cancelSig => (LoopSt.done, [])
  | LoopSt.running, LoopSig.tick => (LoopSt.running, [LoopEv.refreshAttempt])

/-- Run the loop over a schedule of delivered signals, collecting effects. -/
def loopRun : LoopSt → List LoopSig → LoopSt × List LoopEv
  | s, [] => (s, [])
  | s, sig :: rest =>
    let p := loopStep s sig
    let q := loopRun p.1 rest
    (q.1, p.2 ++ q.2)

/-- The _refresh_task slot of a CalendlyTool instance. -/
structure ToolTaskState where
  refreshTask : Option LoopSt
deriving DecidableEq

/-- CalendlyTool.cleanup (src/tools/calendly_tool.py lines 401-411) restricted
to the refresh task: when a task exists, cancel() is called once and the task
is awaited (the delivered cancellation drives the loop to done before cleanup
returns). Returns the new task slot and the number of cancel() calls made. -/
def cleanupTask : ToolTaskState → ToolTaskState × Nat
  | { refreshTask := none } => ({ refreshTask := none }, 0)
  | { refreshTask := some s } =>
    ({ refreshTask := some (loopStep s LoopSig.cancelSig).1 }, 1)

/-- A tool that constructs and initializes successfully (concrete instance for
tests of the registry model). -/
def toolA : ToolSpec :=
  { name := "alpha",
    init := Except.ok true,
    is_configured := Except.ok true,
    cleanup := Except.ok (),
    execute := fun _ _ => Except.ok (create_success_result none none) }

/-- A tool whose initialize raises (concrete instance). -/
def toolB : ToolSpec :=
  { name := "beta",
    init := Except.error "boom",
    is_configured := Except.ok true,
    cleanup := Except.error "cleanup failed",
    execute := fun _ _ => Except.ok (create_success_result none none) }

/-- A concrete constructor list: one healthy tool and one whose initialize
raises. -/
def ctorsW : List (Except String ToolSpec) := [Except.ok toolA, Except.ok toolB]

/-- Concrete Calendly handlers that all raise. -/
def hsFail : CalendlyHandlers :=
  { get_user := fun _ => Except.error "boom",
    list_event_types := fun _ => Except.error "boom",
    get_event_type := fun _ => Except.error "boom",
    list_scheduled_events := fun _ => Except.error "boom",
    get_scheduled_event := fun _ => Except.error "boom",
    list_invitees := fun _ => Except.error "boom",
    cancel_scheduled_event := fun _ => Except.error "boom",
    get_invitee := fun _ => Except.error "boom",
    create_webhook := fun _ => Except.error "boom",
    list_webhooks := fun _ => Except.error "boom",
    delete_webhook := fun _ => Except.error "boom" }

/-- A concrete fully populated Calendly credential state. -/
def stCreds : TokenState :=
  { client_id := some "cid", client_secret := some "sec",
    access_token := some "tok", refresh_token := some "rft",
    token_expires_at := some 500 }

/-- A concrete Calendly credential state whose token is far from expiry. -/
def stFresh : TokenState :=
  { client_id := some "cid", client_secret := some "sec",
    access_token := some "tok", refresh_token := some "rft",
    token_expires_at := some 1000000 }

/-- A concrete Calendly credential state: expiry one hour in the past (taking
now = 0) and no refresh token. -/
def stExpiredNoRefresh : TokenState :=
  { client_id := some "cid", client_secret := some "sec",
    access_token := some "tok", refresh_token := none,
    token_expires_at := some (-3600) }

/-- A concrete Calendly credential state with nothing loaded. -/
def stNoTok : TokenState :=
  { client_id := none, client_secret := none,
    access_token := none, refresh_token := none,
    token_expires_at := none }

/-- A concrete Google credential with an unknown expiry. -/
def gNoExpiry : GCreds :=
  { token := some "tok", refresh_token := some "rft", expiry := none, valid := true }

/-- A concrete Google auth manager holding a credential with unknown expiry. -/
def mNoExpiry : GoogleAuthManager :=
  { credentials := some gNoExpiry, servicesEmpty := true, min_token_lifetime := 300 }

/-- A concrete Google credential far from expiry. -/
def gFresh : GCreds :=
  { token := some "tok", refresh_token := some "rft", expiry := some 1000000, valid := true }

/-- A concrete Google auth manager holding a fresh credential. -/
def mFresh : GoogleAuthManager :=
  { credentials := some gFresh, servicesEmpty := false, min_token_lifetime := 300 }

/-- A concrete Google credential that is nearly expired and has no refresh
token. -/
def gNoRefreshTok : GCreds :=
  { token := some "tok", refresh_token := none, expiry := some 100, valid := false }

/-- A concrete Google auth manager whose credential is refresh-due but has no
refresh token. -/
def mNoRefreshTok : GoogleAuthManager :=
  { credentials := some gNoRefreshTok, servicesEmpty := true, min_token_lifetime := 300 }

theorem foldl_cleanup_logs (reg : ToolRegistry) : ∀ acc : List String,
    reg.foldl (fun logs p =>
      match p.2.spec.cleanup with
      | Except.ok _ => logs
      | Except.error e => logs ++ [e]) acc = acc ++ cleanupErrors reg := by
  induction reg with
  | nil => intro acc; simp [cleanupErrors]
  | cons p rest ih =>
    intro acc
    simp only [List.foldl_cons]
    cases h : p.2.spec.cleanup with
    | ok u => simp [h, ih, cleanupErrors, List.filterMap_cons]
    | error e => simp [h, ih, cleanupErrors, List.filterMap_cons]

/-- C10: to_dict always contains the key "success"; it contains "data" iff
data is not None; and it contains "error" iff error is truthy (set and
nonempty) — a failure result with error set to None or the empty string
serializes with no "error" key, and a success result with data None
serializes with no "data" key. -/
theorem claim_C10_to_dict_keys : ∀ r : ToolResult,
    hasKeyD r.to_dict "success" = true
    ∧ (hasKeyD r.to_dict "data" = true ↔ r.data ≠ none)
    ∧ (hasKeyD r.to_dict "error" = true ↔ ∃ e, r.error = some e ∧ e ≠ "") := by
  intro r
  obtain ⟨s, d, e, m⟩ := r
  cases d <;> cases e <;> cases m <;>
    simp [ToolResult.to_dict, hasKeyD] <;>
    split_ifs <;>
    simp_all

/-- C8: registry cleanup calls each registered tool's cleanup, swallowing and
logging per-tool exceptions (the collected log equals exactly the raising
tools' errors), leaves the tool map empty, and is total; a second cleanup on
the resulting registry also runs without error and leaves the map empty. -/
theorem claim_C8_cleanup_idempotent : ∀ reg : ToolRegistry,
    (registryCleanup reg).2 = []
    ∧ (registryCleanup reg).1 = cleanupErrors reg
    ∧ registryCleanup (registryCleanup reg).2 = ([], []) := by
  intro reg
  refine ⟨rfl, ?_, rfl⟩
  simpa using foldl_cleanup_logs reg []

/-- C4: execute_tool on a name that is not registered returns a dict with
success false and an error string containing "not found", and (being a total
function of the model) never raises. -/
theorem claim_C4_tool_not_found : ∀ (reg : ToolRegistry) (name : String) (params : PParams),
    lookupReg reg name = none →
    execute_tool reg name params
      = [("success", DVal.dBool false), ("error", DVal.dStr ("Tool not found: " ++ name))]
    ∧ ∃ pre post, ("Tool not found: " ++ name).data = pre ++ ("not found").data ++ post := by
  intro reg name params h
  constructor
  · simp [execute_tool, h]
  · refine ⟨"Tool ".data, ": ".data ++ name.data, ?_⟩
    rw [String.data_append]
    have h2 : "Tool not found: ".data = "Tool ".data ++ "not found".data ++ ": ".data := by
      decide
    rw [h2]
    simp [List.append_assoc]

/-- Witness for C4 at the empty registry and the name calendly. -/
theorem claim_C4_witness :
    execute_tool [] "calendly" []
      = [("success", DVal.dBool false), ("error", DVal.dStr ("Tool not found: " ++ "calendly"))] :=
  (claim_C4_tool_not_found [] "calendly" [] rfl).1

/-- C3: for a configured Calendly tool, execute never lets an exception reach
the caller: an action outside the closed enumeration yields a failure result
whose error message mentions the unknown action, and a handler that raises is
caught and converted into an Operation failed failure result. -/
theorem claim_C3_execute_closed_dispatch :
    ∀ (access_token : Option String) (session : Bool) (hs : CalendlyHandlers)
      (action : String) (params : PParams),
    CalendlyTool.is_configured access_token session = true →
    ((action ∉ calendlyActions →
        CalendlyTool.execute access_token session hs action params
          = create_error_result ("Unknown action: " ++ action)
        ∧ ∃ pre post, ("Unknown action: " ++ action).data = pre ++ action.data ++ post)
     ∧ (∀ e, calendlyDispatch hs action params = Except.error e →
        CalendlyTool.execute access_token session hs action params
          = create_error_result ("Operation failed: " ++ e))) := by
  intro access_token session hs action params hconf
  constructor
  · intro hmem
    simp only [calendlyActions, List.mem_cons, List.not_mem_nil, or_false] at hmem
    push_neg at hmem
    obtain ⟨h1, h2, h3, h4, h5, h6, h7, h8, h9, h10, h11⟩ := hmem
    constructor
    · simp [CalendlyTool.execute, hconf, calendlyDispatch,
            h1, h2, h3, h4, h5, h6, h7, h8, h9, h10, h11]
    · exact ⟨"Unknown action: ".data, [], by rw [String.data_append]; simp⟩
  · intro e he
    simp [CalendlyTool.execute, hconf, he]

/-- Witness for C3: a configured tool with an unknown action and with a
raising handler, at concrete inputs. -/
theorem claim_C3_witness :
    CalendlyTool.execute (some "tok") true hsFail "frobnicate" []
      = create_error_result ("Unknown action: " ++ "frobnicate")
    ∧ CalendlyTool.execute (some "tok") true hsFail "get_user" []
      = create_error_result ("Operation failed: " ++ "boom") :=
  ⟨((claim_C3_execute_closed_dispatch (some "tok") true hsFail "frobnicate" [] rfl).1
      (by decide)).1,
   (claim_C3_execute_closed_dispatch (some "tok") true hsFail "get_user" [] rfl).2 "boom" rfl⟩

theorem lookupReg_insert_self (reg : ToolRegistry) (k : String) (v : RegisteredTool) :
    lookupReg (insertTool reg k v) k = some v := by
  simp [insertTool, lookupReg]

theorem lookupReg_insert_ne (reg : ToolRegistry) (k k' : String) (v : RegisteredTool)
    (h : k ≠ k') : lookupReg (insertTool reg k v) k' = lookupReg reg k' := by
  simp [insertTool, lookupReg, h]

theorem initOne_ok_eq (reg : ToolRegistry) (tool : ToolSpec) :
    initOne reg (Except.ok tool)
      = match regOutcome tool with
        | none => reg
        | some c => insertTool reg tool.name { spec := tool, configured := c } := by
  unfold initOne regOutcome
  by_cases h : initOk tool
  · simp only [h, if_true]
    cases tool.is_configured <;> rfl
  · simp only [h, if_false, Bool.false_eq_true]

theorem lookupReg_initOne_ne (reg : ToolRegistry) (ctor : Except String ToolSpec)
    (name : String) (h : ∀ t, ctor = Except.ok t → t.name ≠ name) :
    lookupReg (initOne reg ctor) name = lookupReg reg name := by
  cases ctor with
  | error e => rfl
  | ok tool =>
    rw [initOne_ok_eq]
    cases regOutcome tool with
    | none => rfl
    | some c => exact lookupReg_insert_ne _ _ _ _ (h tool rfl)

theorem lookupReg_foldl_ne :
    ∀ (ctors : List (Except String ToolSpec)) (reg : ToolRegistry) (name : String),
    (∀ t, Except.ok t ∈ ctors → t.name ≠ name) →
    lookupReg (ctors.foldl initOne reg) name = lookupReg reg name := by
  intro ctors
  induction ctors with
  | nil => intro reg name _; rfl
  | cons c rest ih =>
    intro reg name h
    simp only [List.foldl_cons]
    rw [ih _ _ (fun t ht => h t (List.mem_cons_of_mem _ ht)),
        lookupReg_initOne_ne _ _ _ (fun t hc => h t (by rw [hc]; exact List.mem_cons_self _ _))]

theorem mem_namesOf (t : ToolSpec) (ctors : List (Except String ToolSpec))
    (h : Except.ok t ∈ ctors) : t.name ∈ namesOf ctors :=
  List.mem_filterMap.mpr ⟨Except.ok t, h, rfl⟩

theorem registered_of_regOutcome :
    ∀ (ctors : List (Except String ToolSpec)) (reg : ToolRegistry) (tool : ToolSpec)
      (cfg : Bool),
    (namesOf ctors).Nodup →
    Except.ok tool ∈ ctors →
    regOutcome tool = some cfg →
    lookupReg (ctors.foldl initOne reg) tool.name
      = some { spec := tool, configured := cfg } := by
  intro ctors
  induction ctors with
  | nil => intro reg tool cfg _ hm; cases hm
  | cons c rest ih =>
    intro reg tool cfg hnd hm hro
    rcases List.mem_cons.mp hm with hc | hm'
    · subst hc
      simp only [List.foldl_cons]
      have hnotin : tool.name ∉ namesOf rest := by
        have : namesOf (Except.ok tool :: rest) = tool.name :: namesOf rest := by
          simp [namesOf, List.filterMap_cons]
        rw [this] at hnd
        exact (List.nodup_cons.mp hnd).1
      rw [lookupReg_foldl_ne rest _ _
            (fun t ht heq => hnotin (by rw [← heq]; exact mem_namesOf t rest ht))]
      rw [initOne_ok_eq, hro]
      exact lookupReg_insert_self _ _ _
    · simp only [List.foldl_cons]
      refine ih _ _ _ ?_ hm' hro
      cases c with
      | error e =>
        simpa [namesOf, List.filterMap_cons] using hnd
      | ok t =>
        have : namesOf (Except.ok t :: rest) = t.name :: namesOf rest := by
          simp [namesOf, List.filterMap_cons]
        rw [this] at hnd
        exact (List.nodup_cons.mp hnd).2

/-- C1: under the registry invariant that tool names are pairwise distinct,
every successfully constructed tool whose initialize raises or returns false
is still registered in the tool map with configured false, and every other
tool is registered with exactly the configured flag its own initialization
determines, independent of the failures of the rest of the list. -/
theorem claim_C1_failed_init_still_registered :
    ∀ (ctors : List (Except String ToolSpec)),
    (namesOf ctors).Nodup →
    ∀ tool : ToolSpec, Except.ok tool ∈ ctors →
      ((initOk tool = false →
          lookupReg (initialize_tools ctors) tool.name
            = some { spec := tool, configured := false })
       ∧ (∀ cfg, regOutcome tool = some cfg →
          lookupReg (initialize_tools ctors) tool.name
            = some { spec := tool, configured := cfg })) := by
  intro ctors hnd tool hm
  constructor
  · intro hfail
    have hro : regOutcome tool = some false := by simp [regOutcome, hfail]
    exact registered_of_regOutcome ctors [] tool false hnd hm hro
  · intro cfg hro
    exact registered_of_regOutcome ctors [] tool cfg hnd hm hro

/-- Witness for C1: a two-tool list where the second tool's initialize raises;
it is registered with configured false while the first is registered with
configured true. -/
theorem claim_C1_witness :
    lookupReg (initialize_tools ctorsW) "beta" = some { spec := toolB, configured := false }
    ∧ lookupReg (initialize_tools ctorsW) "alpha" = some { spec := toolA, configured := true } :=
  ⟨by
    have h := (claim_C1_failed_init_still_registered ctorsW (by decide) toolB
      (List.mem_cons_of_mem _ (List.mem_cons_self _ _))).1 rfl
    exact h,
   by
    have h := (claim_C1_failed_init_still_registered ctorsW (by decide) toolA
      (List.mem_cons_self _ _)).2 true rfl
    exact h⟩

theorem refresh_fail_eq (st : TokenState) (now : Int) (resp : RefreshResp)
    (h : isFailResp resp = true) :
    refresh_access_token st now resp
      = (none, st,
         if pyTruthyS st.client_id && pyTruthyS st.client_secret && pyTruthyS st.refresh_token
         then [CEv.refreshCall] else []) := by
  cases resp with
  | okResp td => simp [isFailResp] at h
  | errResp s b =>
    by_cases hc : pyTruthyS st.client_id && pyTruthyS st.client_secret && pyTruthyS st.refresh_token
      <;> simp [refresh_access_token, hc]
  | exnResp e =>
    by_cases hc : pyTruthyS st.client_id && pyTruthyS st.client_secret && pyTruthyS st.refresh_token
      <;> simp [refresh_access_token, hc]

theorem envWrite_not_step3 (st : TokenState) (v2 : Bool) (acc : List CEv)
    (h : CEv.envWrite ∉ acc) : CEv.envWrite ∉ (ensureStep3 st v2 acc).2.2 := by
  unfold ensureStep3
  split_ifs <;> simp_all

/-- C2: when the provider refresh call fails (non-success response or
exception), refresh_access_token returns None, leaves every in-memory
credential field exactly as it was, and the .env write of the success path of
ensure_valid_token never happens (the persisted credential is only written
after a successful refresh). -/
theorem claim_C2_refresh_failure_safety :
    ∀ (st : TokenState) (now : Int) (resp : RefreshResp) (v1 v2 : Bool),
    isFailResp resp = true →
    (refresh_access_token st now resp).1 = none
    ∧ (refresh_access_token st now resp).2.1 = st
    ∧ CEv.envWrite ∉ (ensure_valid_token st now v1 v2 resp).2.2 := by
  intro st now resp v1 v2 h
  have hre := refresh_fail_eq st now resp h
  refine ⟨by rw [hre], by rw [hre], ?_⟩
  simp only [ensure_valid_token, hre]
  split_ifs <;>
    first
      | (apply envWrite_not_step3; simp)
      | simp

/-- Witness for C2: a fully populated credential state and a 400 refresh
response. -/
theorem claim_C2_witness :
    (refresh_access_token stCreds 0 (RefreshResp.errResp 400 "bad")).1 = none
    ∧ (refresh_access_token stCreds 0 (RefreshResp.errResp 400 "bad")).2.1 = stCreds
    ∧ CEv.envWrite ∉ (ensure_valid_token stCreds 0 false false (RefreshResp.errResp 400 "bad")).2.2 :=
  claim_C2_refresh_failure_safety stCreds 0 (RefreshResp.errResp 400 "bad") false false rfl

/-- Counterexample for C5: a Google credential whose expiry timestamp is
unknown, on which the refresh-due check _should_refresh_token returns false,
not true as the claim states. -/
theorem claim_C5_counterexample :
    mNoExpiry.credentials = some gNoExpiry
    ∧ gNoExpiry.expiry = none
    ∧ should_refresh_token mNoExpiry 0 ≠ true := by
  decide

/-- C5 as amended: the Calendly check treats unknown expiry as expired and
otherwise fires exactly when now is at or past the stored (already buffered)
expiry, while the Google check returns false when credentials or expiry are
unknown and otherwise fires exactly when strictly fewer than
min_token_lifetime seconds remain until expiry. -/
theorem claim_C5_amended_expiry_checks :
    ∀ (st : TokenState) (m : GoogleAuthManager) (c : GCreds) (now t e : Int),
    is_token_expired { st with token_expires_at := none } now = true
    ∧ is_token_expired { st with token_expires_at := some t } now = decide (now ≥ t)
    ∧ should_refresh_token { m with credentials := none } now = false
    ∧ should_refresh_token { m with credentials := some { c with expiry := none } } now = false
    ∧ should_refresh_token { m with credentials := some { c with expiry := some e } } now
        = decide (e - now < m.min_token_lifetime) := by
  intro st m c now t e
  exact ⟨rfl, rfl, rfl, rfl, rfl⟩

/-- Counterexample for C6: a Calendly credential far from expiry on which
ensure_valid_token nevertheless performs a validation network call (the trace
is not empty), contradicting the claim that no network call happens when the
credential is not expired. -/
theorem claim_C6_counterexample :
    is_token_expired stFresh 0 = false
    ∧ (ensure_valid_token stFresh 0 true true (RefreshResp.errResp 0 "")).1 = true
    ∧ (ensure_valid_token stFresh 0 true true (RefreshResp.errResp 0 "")).2.2
        = [CEv.validate] := by
  decide

/-- C6 as amended: Google's ensure_valid_credentials returns the credential
validity flag with no network call when the refresh check is false, while
Calendly's ensure_valid_token ignores the expiry check and always starts with
a validation network call when an access token is present, returning success
immediately when that validation succeeds. -/
theorem claim_C6_amended_ensure_valid :
    ∀ (m : GoogleAuthManager) (c : GCreds) (now : Int) (gresp : GRefreshResp)
      (st : TokenState) (v2 : Bool) (resp : RefreshResp),
    (m.credentials = some c → should_refresh_token m now = false →
       ensure_valid_credentials m now gresp = (Except.ok c.valid, m, []))
    ∧ (pyTruthyS st.access_token = true →
       ensure_valid_token st now true v2 resp = (true, st, [CEv.validate])) := by
  intro m c now gresp st v2 resp
  constructor
  · intro h1 h2
    simp [ensure_valid_credentials, h1, h2]
  · intro h
    simp [ensure_valid_token, h]

/-- Witness for C6 as amended, at concrete fresh credentials. -/
theorem claim_C6_amended_witness :
    ensure_valid_credentials mFresh 0 (GRefreshResp.failure "x")
      = (Except.ok true, mFresh, [])
    ∧ ensure_valid_token stFresh 0 true false (RefreshResp.errResp 0 "")
      = (true, stFresh, [CEv.validate]) :=
  ⟨(claim_C6_amended_ensure_valid mFresh gFresh 0 (GRefreshResp.failure "x")
      stFresh false (RefreshResp.errResp 0 "")).1 rfl (by decide),
   (claim_C6_amended_ensure_valid mFresh gFresh 0 (GRefreshResp.failure "x")
      stFresh false (RefreshResp.errResp 0 "")).2 rfl⟩

/-- Counterexample for C7: a Calendly credential with expiry one hour in the
past and no refresh token, on which ensure_valid_token does return failure but
performs two validation network calls, contradicting the claim that no network
call is attempted. -/
theorem claim_C7_counterexample :
    is_token_expired stExpiredNoRefresh 0 = true
    ∧ stExpiredNoRefresh.refresh_token = none
    ∧ (ensure_valid_token stExpiredNoRefresh 0 false false (RefreshResp.errResp 0 "")).1 = false
    ∧ (ensure_valid_token stExpiredNoRefresh 0 false false (RefreshResp.errResp 0 "")).2.2
        = [CEv.validate, CEv.validate] := by
  decide

/-- C7 as amended: with no refresh token, Calendly's ensure_valid_token
returns failure and never calls refresh, making no network call only when the
access token is also absent, and otherwise making validation calls (two when
both validations fail); Google's ensure_valid_credentials raises No refresh
token available without any network call instead of returning failure. -/
theorem claim_C7_amended_no_refresh_token :
    ∀ (st : TokenState) (now : Int) (v1 v2 : Bool) (resp : RefreshResp)
      (m : GoogleAuthManager) (c : GCreds) (gresp : GRefreshResp),
    (pyTruthyS st.refresh_token = false → pyTruthyS st.access_token = false →
       ensure_valid_token st now v1 v2 resp = (false, st, []))
    ∧ (pyTruthyS st.refresh_token = false → pyTruthyS st.access_token = true →
       ensure_valid_token st now false false resp
         = (false, st, [CEv.validate, CEv.validate]))
    ∧ (m.credentials = some c → pyTruthyS c.refresh_token = false →
       should_refresh_token m now = true →
       ensure_valid_credentials m now gresp
         = (Except.error "No refresh token available", m, [])) := by
  intro st now v1 v2 resp m c gresp
  refine ⟨?_, ?_, ?_⟩
  · intro h1 h2
    simp [ensure_valid_token, h1, h2, ensureStep3]
  · intro h1 h2
    simp [ensure_valid_token, h1, h2, ensureStep3]
  · intro h1 h2 h3
    simp [ensure_valid_credentials, h1, h3, refresh_credentials, h2]

/-- Witness for C7 as amended, at concrete credentials with no refresh
token. -/
theorem claim_C7_amended_witness :
    ensure_valid_token stNoTok 0 false false (RefreshResp.errResp 0 "")
      = (false, stNoTok, [])
    ∧ ensure_valid_token stExpiredNoRefresh 0 false false (RefreshResp.errResp 0 "")
      = (false, stExpiredNoRefresh, [CEv.validate, CEv.validate])
    ∧ ensure_valid_credentials mNoRefreshTok 0 (GRefreshResp.failure "x")
      = (Except.error "No refresh token available", mNoRefreshTok, []) :=
  ⟨(claim_C7_amended_no_refresh_token stNoTok 0 false false (RefreshResp.errResp 0 "")
      mNoRefreshTok gNoRefreshTok (GRefreshResp.failure "x")).1 rfl rfl,
   (claim_C7_amended_no_refresh_token stExpiredNoRefresh 0 false false
      (RefreshResp.errResp 0 "") mNoRefreshTok gNoRefreshTok (GRefreshResp.failure "x")).2.1
      rfl rfl,
   (claim_C7_amended_no_refresh_token stExpiredNoRefresh 0 false false
      (RefreshResp.errResp 0 "") mNoRefreshTok gNoRefreshTok (GRefreshResp.failure "x")).2.2
      rfl rfl (by decide)⟩

/-- C9: for a tool holding a live background refresh task, cleanup issues
exactly one cancel, and the awaited task reaches the done state (the loop's
except clause catches the cancellation and breaks) before cleanup returns;
from the done state no schedule of further interval ticks produces any refresh
attempt. -/
theorem claim_C9_cancellation :
    ∀ (s : LoopSt) (sigs : List LoopSig),
    (cleanupTask { refreshTask := some s }).2 = 1
    ∧ (cleanupTask { refreshTask := some s }).1.refreshTask = some LoopSt.done
    ∧ loopRun LoopSt.done sigs = (LoopSt.done, []) := by
  intro s sigs
  refine ⟨rfl, ?_, ?_⟩
  · cases s <;> rfl
  · induction sigs with
    | nil => rfl
    | cons sig rest ih => cases sig <;> simp [loopRun, loopStep, ih]
